import Mathlib

/-!
Shallow embedding of `mstate/relation.go` (relation endpoints, relation
lifecycle, relation-unit membership keys, the join/depart membership
protocol and per-unit settings access).  Go strings are Lean `String`s,
Go slices are Lean `List`s, the MongoDB collections touched by this file
(`settings`, `relationRefs`) are an explicit `Store` value threaded
through the operations, and Go `error` results become `Except`.
A Go `panic` is modelled by `Option.none`.
-/

deriving instance DecidableEq for Except

namespace Mstate

/-- Go: `type RelationRole string` (relation.go:14). -/
abbrev RelationRole := String

/-- Go constant `RoleProvider` (relation.go:17). -/
def RoleProvider : RelationRole := "provider"

/-- Go constant `RoleRequirer` (relation.go:18). -/
def RoleRequirer : RelationRole := "requirer"

/-- Go constant `RolePeer` (relation.go:19). -/
def RolePeer : RelationRole := "peer"

/-- Go: `func (r RelationRole) counterpartRole() RelationRole`
(relation.go:28-38).  The `panic` on an unknown role is modelled by
`none`. -/
def counterpartRole (r : RelationRole) : Option RelationRole :=
  if r = RoleProvider then some RoleRequirer
  else if r = RoleRequirer then some RoleProvider
  else if r = RolePeer then some RolePeer
  else none

/-- Modelled from the spec: endpoint scope is `global` or `container`
(`charm.RelationScope`; the charm package is not under src). -/
inductive RelationScope where
  | ScopeGlobal
  | ScopeContainer
deriving DecidableEq, Repr

/-- Go: `type RelationEndpoint struct` (relation.go:41-47). -/
structure RelationEndpoint where
  ServiceName : String
  Interface : String
  RelationName : String
  RelationRole : RelationRole
  RelationScope : RelationScope
deriving DecidableEq, Repr

/-- Go: `func (e *RelationEndpoint) CanRelateTo(other *RelationEndpoint) bool`
(relation.go:50-59).  `none` models the panic that `counterpartRole`
raises on an unknown role. -/
def CanRelateTo (e other : RelationEndpoint) : Option Bool :=
  if e.Interface ≠ other.Interface then some false
  else if e.RelationRole = RolePeer then some false
  else (counterpartRole e.RelationRole).map (fun cr => decide (cr = other.RelationRole))

/-- Go: `func (e RelationEndpoint) String() string` (relation.go:62-64). -/
def RelationEndpoint.str (e : RelationEndpoint) : String :=
  e.ServiceName ++ ":" ++ e.RelationName

/-- Go: `strings.Join(elems, sep)` as used in relation.go. -/
def goJoin (elems : List String) (sep : String) : String :=
  match elems with
  | [] => ""
  | x :: xs => xs.foldl (fun acc y => acc ++ sep ++ y) x

/-- Character-list splitter underlying `goSplit`: splits on every
occurrence of `c`, Go `strings.Split` semantics for a one-character
separator. -/
def splitChars (c : Char) : List Char → List (List Char)
  | [] => [[]]
  | x :: xs =>
    if x = c then [] :: splitChars c xs
    else
      match splitChars c xs with
      | [] => [[x]]
      | g :: gs => (x :: g) :: gs

/-- Go: `strings.Split(s, sep)` for the one-character separators used in
relation.go (`"/"` and `"#"`). -/
def goSplit (s : String) (c : Char) : List String :=
  (splitChars c s.data).map (fun l => String.mk l)

/-- Lexicographic order on character lists: the order Go uses to
compare strings byte by byte (these keys are ASCII, where byte order
and code-point order agree). -/
def lexLe : List Char → List Char → Bool
  | [], _ => true
  | _ :: _, [] => false
  | a :: as, b :: bs =>
    if a < b then true
    else if a = b then lexLe as bs
    else false

/-- Go string comparison `a <= b` as used by `sort.Strings`. -/
def strLeb (a b : String) : Bool :=
  lexLe a.data b.data

/-- Go: `sort.Strings(names)` — the names sorted into ascending
lexicographic order. -/
def sortStrings (l : List String) : List String :=
  List.insertionSort (fun a b => strLeb a b = true) l

/-- Go: `func relationKey(endpoints []RelationEndpoint) string`
(relation.go:68-75). -/
def relationKey (endpoints : List RelationEndpoint) : String :=
  goJoin (sortStrings (endpoints.map RelationEndpoint.str)) " "

/-- Go: `type Life int8` with constants `Alive`, `Dying`, `Dead`
(mstate/life.go, declarations visible through relation.go). -/
inductive Life where
  | Alive
  | Dying
  | Dead
deriving DecidableEq, Repr

/-- The numeric value of a `Life` constant (Go iota order). -/
def Life.num : Life → Nat
  | .Alive => 0
  | .Dying => 1
  | .Dead => 2

/-- Modelled from the spec: `ensureLife` (mstate/life.go is not under
src).  A conditional forward update of the stored life: the document's
life is set to `target` when `target` is strictly ahead of the current
state, and "any attempt to set a state not reachable from the current
one is a no-op, not an error", so no error outcome is modelled for the
transition itself. -/
def ensureLife (current target : Life) : Life :=
  if current.num < target.num then target else current

/-- The two copies of a relation's life that `Kill`/`Die` touch: the
life field of the MongoDB relation document (`stored`) and the
in-memory `r.doc.Life` of the `Relation` value, which is what `Life()`
(relation.go:112-114) reports. -/
structure LifeState where
  stored : Life
  doc : Life
deriving DecidableEq, Repr

/-- Go: `func (r *Relation) Kill() error` (relation.go:118-125),
projected onto the life fields: `ensureLife` updates the stored
document, and on a nil error the code assigns `r.doc.Life = Dying`
unconditionally. -/
def Kill (s : LifeState) : LifeState :=
  { stored := ensureLife s.stored Life.Dying, doc := Life.Dying }

/-- Go: `func (r *Relation) Die() error` (relation.go:129-136),
projected onto the life fields: `ensureLife` updates the stored
document, and on a nil error the code assigns `r.doc.Life = Dead`
unconditionally. -/
def Die (s : LifeState) : LifeState :=
  { stored := ensureLife s.stored Life.Dead, doc := Life.Dead }

/-- The Go errors produced by the relation code, as structured values:
`serviceNotMember` is `"service %q is not a member of %q"`
(relation.go:154), `noRelatedEndpoints` is `"no endpoints of %q relate
to service %q"` (relation.go:173), `notFound` is `"not found"`
(relation.go:303), `duplicateKey` is the transaction runner's
duplicate-key abort, `noPrivateAddress` is the unit's missing
private address, and the two `cannot...` wrappers are the
`trivial.ErrorContextf` context added by `EnsureJoin`
(relation.go:230) and `ReadSettings` (relation.go:293). -/
inductive MErr where
  | serviceNotMember (service relation : String)
  | noRelatedEndpoints (relation service : String)
  | notFound
  | duplicateKey (key : String)
  | noPrivateAddress (unit : String)
  | cannotInitState (unit relation : String) (inner : MErr)
  | cannotReadSettings (unit relation : String) (inner : MErr)
deriving DecidableEq, Repr

/-- Go: `type relationDoc struct` (relation.go:78-83). -/
structure relationDoc where
  Key : String
  Id : Int
  Endpoints : List RelationEndpoint
  Life : Life
deriving DecidableEq, Repr

/-- Go: `type Relation struct` (relation.go:86-89); the `st` field is
replaced by passing the store explicitly to the operations that need
it. -/
structure Relation where
  doc : relationDoc
deriving DecidableEq, Repr

/-- Go: `func (r *Relation) String() string` (relation.go:98-100). -/
def Relation.str (r : Relation) : String :=
  r.doc.Key

/-- Go: `func (r *Relation) Life() Life` (relation.go:112-114). -/
def Relation.LifeOf (r : Relation) : Life :=
  r.doc.Life

/-- Go: `func (r *Relation) Id() int` (relation.go:142-144). -/
def Relation.IdOf (r : Relation) : Int :=
  r.doc.Id

/-- Go: `func (r *Relation) Endpoint(serviceName string)` (relation.go:148-155):
linear scan for the first endpoint of the named service. -/
def Relation.Endpoint (r : Relation) (serviceName : String) : Except MErr RelationEndpoint :=
  match r.doc.Endpoints.find? (fun ep => ep.ServiceName == serviceName) with
  | some ep => .ok ep
  | none => .error (.serviceNotMember serviceName r.doc.Key)

/-- Go: `func (r *Relation) RelatedEndpoints(serviceName string)`
(relation.go:160-176).  The outer `Option` models the panic of
`counterpartRole` on an unknown role. -/
def Relation.RelatedEndpoints (r : Relation) (serviceName : String) :
    Option (Except MErr (List RelationEndpoint)) :=
  match r.Endpoint serviceName with
  | .error e => some (.error e)
  | .ok lep =>
    match counterpartRole lep.RelationRole with
    | none => none
    | some role =>
      let eps := r.doc.Endpoints.filter (fun ep => ep.RelationRole == role)
      if eps.isEmpty then some (.error (.noRelatedEndpoints r.doc.Key serviceName))
      else some (.ok eps)

/-- The unit fields that relation.go reads: `u.doc.Name`,
`u.doc.Service`, `u.doc.Principal` (relation.go:180-199, 235) and,
modelled from the spec, the unit's resolved private address
(`u.PrivateAddress()`, mstate/unit.go is not under src; `none` models
the address-not-set error). -/
structure Unit where
  Name : String
  Service : String
  Principal : String
  PrivateAddress : Option String
deriving DecidableEq, Repr

/-- Go: `type RelationUnit struct` (relation.go:203-209); the `st`
field is replaced by passing the store explicitly. -/
structure RelationUnit where
  relation : Relation
  unit : Unit
  endpoint : RelationEndpoint
  scope : String
deriving DecidableEq, Repr

/-- Go: `func (r *Relation) Unit(u *Unit) (*RelationUnit, error)`
(relation.go:179-199): resolves the unit's endpoint and derives the
scope string, appending the container name (the principal's name, or
the unit's own name when it has no principal) when the endpoint is
container-scoped. -/
def Relation.Unit (r : Relation) (u : Mstate.Unit) : Except MErr RelationUnit :=
  match r.Endpoint u.Service with
  | .error e => .error e
  | .ok ep =>
    let scope0 := ["r", toString r.doc.Id]
    let scope1 :=
      if ep.RelationScope = RelationScope.ScopeContainer then
        let container := if u.Principal = "" then u.Name else u.Principal
        scope0 ++ [container]
      else scope0
    .ok { relation := r, unit := u, endpoint := ep, scope := goJoin scope1 "#" }

/-- Go: `func (ru *RelationUnit) key(uname string) (string, error)`
(relation.go:315-324): the service name is the part of the unit name
before `"/"`, its endpoint is resolved in the relation, and the key is
scope, role and unit name joined with `"#"`. -/
def RelationUnit.key (ru : RelationUnit) (uname : String) : Except MErr String :=
  let uparts := goSplit uname '/'
  let sname := uparts.headD ""
  match ru.relation.Endpoint sname with
  | .error e => .error e
  | .ok ep => .ok (goJoin [ru.scope, ep.RelationRole, uname] "#")

/-- Go: `type relationRefDoc struct` (relation.go:328-330). -/
structure relationRefDoc where
  Key : String
deriving DecidableEq, Repr

/-- Go: `func (d *relationRefDoc) UnitName() string` (relation.go:332-335):
the last `#`-delimited segment of the key. -/
def relationRefDoc.UnitName (d : relationRefDoc) : String :=
  (goSplit d.Key '#').getLastD ""

/-- The two MongoDB collections relation.go writes through the
transaction runner: per-key settings documents (flat string maps) and
the set of membership marker keys (`relationRefs`). -/
structure Store where
  settings : List (String × List (String × String))
  relationRefs : List String
deriving DecidableEq, Repr

/-- Modelled from the spec: `newConfigNode` + `Set` + `Write` (the
ConfigNode code is not under src) — "write/overwrite the unit's
settings document at the membership key". -/
def writeSettingsDoc (st : Store) (key : String) (contents : List (String × String)) : Store :=
  { st with settings := (key, contents) :: st.settings.filter (fun kv => kv.1 ≠ key) }

/-- Modelled from the spec: `readConfigNode` + `Map()` (not under src) —
the persisted settings document at `key`, empty when absent. -/
def readConfigNode (st : Store) (key : String) : List (String × String) :=
  (st.settings.lookup key).getD []

/-- Modelled from the spec: the transaction runner's atomic `Insert`
op on `relationRefs` — "insert fails if key exists" (duplicate key),
otherwise the marker document is added. -/
def txnInsertRef (st : Store) (key : String) : Except MErr Store :=
  if key ∈ st.relationRefs then .error (.duplicateKey key)
  else .ok { st with relationRefs := key :: st.relationRefs }

/-- Modelled from the spec: the transaction runner's `Remove` op on
`relationRefs` — the marker document with this id is removed; removal
of an absent document is modelled as a no-op (the spec leaves that
case open). -/
def txnRemoveRef (st : Store) (key : String) : Store :=
  { st with relationRefs := st.relationRefs.filter (fun k => k ≠ key) }

/-- Go: `func (ru *RelationUnit) EnsureJoin() (err error)`
(relation.go:229-250): resolve the private address, derive the key,
write the settings document with `private-address`, then atomically
insert the membership marker; every error is wrapped with the
`cannot initialize state for unit ... in relation ...` context. -/
def RelationUnit.EnsureJoin (ru : RelationUnit) (st : Store) : Except MErr Store :=
  match ru.unit.PrivateAddress with
  | none =>
    .error (.cannotInitState ru.unit.Name ru.relation.doc.Key (.noPrivateAddress ru.unit.Name))
  | some address =>
    match ru.key ru.unit.Name with
    | .error e => .error (.cannotInitState ru.unit.Name ru.relation.doc.Key e)
    | .ok key =>
      let st1 := writeSettingsDoc st key [("private-address", address)]
      match txnInsertRef st1 key with
      | .error e => .error (.cannotInitState ru.unit.Name ru.relation.doc.Key e)
      | .ok st2 => .ok st2

/-- Go: `func (ru *RelationUnit) EnsureDepart() error`
(relation.go:254-265): derive the key and atomically remove the
membership marker document; the settings collection is not touched. -/
def RelationUnit.EnsureDepart (ru : RelationUnit) (st : Store) : Except MErr Store :=
  match ru.key ru.unit.Name with
  | .error e => .error e
  | .ok key => .ok (txnRemoveRef st key)

/-- Go: `func (ru *RelationUnit) ReadSettings(uname string)`
(relation.go:292-310): derive the key for `uname`, fail with
`not found` when no settings document exists at that key, otherwise
return the document's map; every error is wrapped with the
`cannot read settings for unit ... in relation ...` context. -/
def RelationUnit.ReadSettings (ru : RelationUnit) (uname : String) (st : Store) :
    Except MErr (List (String × String)) :=
  match ru.key uname with
  | .error e => .error (.cannotReadSettings uname ru.relation.doc.Key e)
  | .ok key =>
    match st.settings.lookup key with
    | none => .error (.cannotReadSettings uname ru.relation.doc.Key .notFound)
    | some _ => .ok (readConfigNode st key)

/-! Concrete fixtures used to exercise the definitions on closed
inputs. -/

/-- A provider endpoint of a global mysql relation. -/
def epProv : RelationEndpoint :=
  { ServiceName := "mysql", Interface := "mysql", RelationName := "server",
    RelationRole := RoleProvider, RelationScope := .ScopeGlobal }

/-- The requirer endpoint counterpart of `epProv`. -/
def epReq : RelationEndpoint :=
  { ServiceName := "wordpress", Interface := "mysql", RelationName := "db",
    RelationRole := RoleRequirer, RelationScope := .ScopeGlobal }

/-- A two-endpoint global relation between `epProv` and `epReq`. -/
def rFix : Relation :=
  ⟨{ Key := "mysql:server wordpress:db", Id := 42,
     Endpoints := [epProv, epReq], Life := .Alive }⟩

/-- A principal wordpress unit with a resolved private address. -/
def uFix : Mstate.Unit :=
  { Name := "wordpress/0", Service := "wordpress", Principal := "",
    PrivateAddress := some "10.0.0.1" }

/-- The relation unit of `uFix` in `rFix` (global scope string). -/
def ruFix : RelationUnit :=
  { relation := rFix, unit := uFix, endpoint := epReq, scope := "r#42" }

/-- The store after `ruFix` joined an empty store. -/
def stJoined : Store :=
  { settings := [("r#42#requirer#wordpress/0", [("private-address", "10.0.0.1")])],
    relationRefs := ["r#42#requirer#wordpress/0"] }

/-- A peer endpoint of a single-endpoint peer relation. -/
def epPeer : RelationEndpoint :=
  { ServiceName := "riak", Interface := "riak", RelationName := "ring",
    RelationRole := RolePeer, RelationScope := .ScopeGlobal }

/-- A single-endpoint peer relation over `epPeer`. -/
def rPeer : Relation :=
  ⟨{ Key := "riak:ring", Id := 7, Endpoints := [epPeer], Life := .Alive }⟩

/-- A container-scoped endpoint of a subordinate logging service. -/
def epCont : RelationEndpoint :=
  { ServiceName := "logging", Interface := "juju-info", RelationName := "info",
    RelationRole := RoleRequirer, RelationScope := .ScopeContainer }

/-- A container-scoped relation involving `epCont`. -/
def rCont : Relation :=
  ⟨{ Key := "logging:info mysql:juju-info", Id := 3,
     Endpoints := [epCont], Life := .Alive }⟩

/-- A subordinate logging unit whose principal is `mysql/0`. -/
def uSub1 : Mstate.Unit :=
  { Name := "logging/0", Service := "logging", Principal := "mysql/0",
    PrivateAddress := some "10.0.0.2" }

/-- A second subordinate of the same principal `mysql/0`. -/
def uSub2 : Mstate.Unit :=
  { Name := "logging/1", Service := "logging", Principal := "mysql/0",
    PrivateAddress := some "10.0.0.3" }

/-- A subordinate of a different principal `mysql/1`. -/
def uSub3 : Mstate.Unit :=
  { Name := "logging/2", Service := "logging", Principal := "mysql/1",
    PrivateAddress := some "10.0.0.4" }

end Mstate

namespace Mstate

/-! Helper lemmas about strings and the split/join/sort helpers. -/

/-- Two strings with the same character data are equal. -/
theorem str_ext {s t : String} (h : s.data = t.data) : s = t := by
  cases s
  cases t
  exact congrArg String.mk h

/-- The data of an appended string. -/
theorem str_data_append (s t : String) : (s ++ t).data = s.data ++ t.data := rfl

/-- String append is associative. -/
theorem str_append_assoc (a b c : String) : (a ++ b) ++ c = a ++ (b ++ c) := by
  apply str_ext
  simp [str_data_append]

/-- Left-cancellation for string append. -/
theorem str_append_right_inj (s : String) {p q : String} : s ++ p = s ++ q ↔ p = q := by
  constructor
  · intro h
    have h2 := congrArg String.data h
    rw [str_data_append, str_data_append] at h2
    exact str_ext (List.append_cancel_left h2)
  · intro h
    rw [h]

/-- The splitter never returns the empty list of groups. -/
theorem splitChars_ne_nil (c : Char) (l : List Char) : splitChars c l ≠ [] := by
  induction l with
  | nil => simp [splitChars]
  | cons x xs ih =>
    by_cases hx : x = c
    · simp [splitChars, hx]
    · simp only [splitChars, if_neg hx]
      cases h : splitChars c xs with
      | nil => simp
      | cons g gs => simp

/-- Splitting around one separator occurrence splits each side
independently. -/
theorem splitChars_append (c : Char) (xs ys : List Char) :
    splitChars c (xs ++ c :: ys) = splitChars c xs ++ splitChars c ys := by
  induction xs with
  | nil => simp [splitChars]
  | cons x xs ih =>
    by_cases hx : x = c
    · simp [splitChars, hx, ih]
    · simp only [List.cons_append, splitChars, if_neg hx]
      cases h : splitChars c xs with
      | nil => exact absurd h (splitChars_ne_nil c xs)
      | cons g gs =>
        simp only [List.append_eq]
        rw [ih, h]
        simp

/-- A separator-free list is a single group. -/
theorem splitChars_no_sep (c : Char) (l : List Char) (h : c ∉ l) : splitChars c l = [l] := by
  induction l with
  | nil => simp [splitChars]
  | cons x xs ih =>
    have hx : ¬ x = c := by
      rintro rfl
      exact h (List.mem_cons_self x xs)
    have hxs : c ∉ xs := fun m => h (List.mem_cons_of_mem _ m)
    simp [splitChars, if_neg hx, ih hxs]

/-- Totality of `lexLe`. -/
theorem lexLe_total (as bs : List Char) : lexLe as bs = true ∨ lexLe bs as = true := by
  induction as generalizing bs with
  | nil => left; simp [lexLe]
  | cons a as ih =>
    cases bs with
    | nil => right; simp [lexLe]
    | cons b bs =>
      rcases lt_trichotomy a b with h | h | h
      · left; simp [lexLe, h]
      · subst h
        rcases ih bs with h2 | h2
        · left; simp [lexLe, lt_self_iff_false, h2]
        · right; simp [lexLe, lt_self_iff_false, h2]
      · right; simp [lexLe, h]

/-- Transitivity of `lexLe`. -/
theorem lexLe_trans {as bs cs : List Char} (h1 : lexLe as bs = true) (h2 : lexLe bs cs = true) :
    lexLe as cs = true := by
  induction as generalizing bs cs with
  | nil => simp [lexLe]
  | cons a as ih =>
    cases bs with
    | nil => simp [lexLe] at h1
    | cons b bs =>
      cases cs with
      | nil => simp [lexLe] at h2
      | cons c cs =>
        simp only [lexLe] at h1 h2 ⊢
        rcases lt_trichotomy a b with hab | hab | hab
        · rcases lt_trichotomy b c with hbc | hbc | hbc
          · simp [lt_trans hab hbc]
          · subst hbc; simp [hab]
          · rw [if_neg (asymm hbc), if_neg ((ne_of_lt hbc).symm)] at h2
            simp at h2
        · subst hab
          rw [if_neg (lt_irrefl a), if_pos rfl] at h1
          rcases lt_trichotomy a c with hac | hac | hac
          · simp [hac]
          · subst hac
            rw [if_neg (lt_irrefl a), if_pos rfl] at h2 ⊢
            exact ih h1 h2
          · rw [if_neg (asymm hac), if_neg ((ne_of_lt hac).symm)] at h2
            simp at h2
        · rw [if_neg (asymm hab), if_neg ((ne_of_lt hab).symm)] at h1
          simp at h1

/-- Antisymmetry of `lexLe`. -/
theorem lexLe_antisymm {as bs : List Char} (h1 : lexLe as bs = true) (h2 : lexLe bs as = true) :
    as = bs := by
  induction as generalizing bs with
  | nil =>
    cases bs with
    | nil => rfl
    | cons b bs => simp [lexLe] at h2
  | cons a as ih =>
    cases bs with
    | nil => simp [lexLe] at h1
    | cons b bs =>
      simp only [lexLe] at h1 h2
      rcases lt_trichotomy a b with hab | hab | hab
      · rw [if_neg (asymm hab), if_neg ((ne_of_lt hab).symm)] at h2
        simp at h2
      · subst hab
        rw [if_neg (lt_irrefl a), if_pos rfl] at h1 h2
        rw [ih h1 h2]
      · rw [if_neg (asymm hab), if_neg ((ne_of_lt hab).symm)] at h1
        simp at h1

instance : IsTotal String (fun a b => strLeb a b = true) :=
  ⟨fun a b => lexLe_total a.data b.data⟩

instance : IsTrans String (fun a b => strLeb a b = true) :=
  ⟨fun _ _ _ h1 h2 => lexLe_trans h1 h2⟩

instance : IsAntisymm String (fun a b => strLeb a b = true) :=
  ⟨fun _ _ h1 h2 => str_ext (lexLe_antisymm h1 h2)⟩

/-! The claim theorems. -/

/-- Claim C9: `counterpartRole` maps provider to requirer, requirer to
provider, and peer to peer, and for every role value outside this
closed three-value enumeration it panics (modelled as `none`) instead
of returning a value or a recoverable error. -/
theorem counterpartRole_spec :
    counterpartRole RoleProvider = some RoleRequirer
    ∧ counterpartRole RoleRequirer = some RoleProvider
    ∧ counterpartRole RolePeer = some RolePeer
    ∧ ∀ r : RelationRole, r ≠ RoleProvider → r ≠ RoleRequirer → r ≠ RolePeer →
        counterpartRole r = none := by
  refine ⟨by decide, by decide, by decide, ?_⟩
  intro r h1 h2 h3
  simp [counterpartRole, h1, h2, h3]

/-- Witness for C9: an unknown role value reaches the panic case. -/
theorem counterpartRole_spec_witness : counterpartRole "admin" = none :=
  counterpartRole_spec.2.2.2 "admin" (by decide) (by decide) (by decide)

/-- Claim C1: `CanRelateTo(a, b)` is false when interfaces differ,
false whenever either endpoint's role is peer, and otherwise true iff
b's role is the counterpart of a's role. -/
theorem CanRelateTo_spec (a b : RelationEndpoint)
    (ha : a.RelationRole = RoleProvider ∨ a.RelationRole = RoleRequirer ∨
      a.RelationRole = RolePeer)
    (hb : b.RelationRole = RoleProvider ∨ b.RelationRole = RoleRequirer ∨
      b.RelationRole = RolePeer) :
    (a.Interface ≠ b.Interface → CanRelateTo a b = some false)
    ∧ ((a.RelationRole = RolePeer ∨ b.RelationRole = RolePeer) → CanRelateTo a b = some false)
    ∧ (a.Interface = b.Interface → a.RelationRole ≠ RolePeer → b.RelationRole ≠ RolePeer →
        (CanRelateTo a b = some true ↔ counterpartRole a.RelationRole = some b.RelationRole)) := by
  refine ⟨?_, ?_, ?_⟩
  · intro h
    simp [CanRelateTo, h]
  · intro h
    by_cases hi : a.Interface = b.Interface
    · rcases h with h | h
      · simp [CanRelateTo, hi, h]
      · rcases ha with h1 | h1 | h1 <;>
          simp [CanRelateTo, counterpartRole, hi, h, h1, RoleProvider, RoleRequirer, RolePeer]
    · simp [CanRelateTo, hi]
  · intro hi hna hnb
    rcases ha with h1 | h1 | h1
    · simp [CanRelateTo, counterpartRole, hi, h1, RoleProvider, RoleRequirer, RolePeer]
    · simp [CanRelateTo, counterpartRole, hi, h1, RoleProvider, RoleRequirer, RolePeer]
    · exact absurd h1 hna

/-- Witness for C1 at the provider/requirer fixture endpoints. -/
theorem CanRelateTo_spec_witness :
    (epProv.Interface ≠ epReq.Interface → CanRelateTo epProv epReq = some false)
    ∧ ((epProv.RelationRole = RolePeer ∨ epReq.RelationRole = RolePeer) →
        CanRelateTo epProv epReq = some false)
    ∧ (epProv.Interface = epReq.Interface → epProv.RelationRole ≠ RolePeer →
        epReq.RelationRole ≠ RolePeer →
        (CanRelateTo epProv epReq = some true ↔
          counterpartRole epProv.RelationRole = some epReq.RelationRole)) :=
  CanRelateTo_spec epProv epReq (Or.inl (by decide)) (Or.inr (Or.inl (by decide)))

/-- Claim C2 (code bug demonstration): starting from an Alive relation,
`Die` moves both the stored and the in-memory life to Dead, but a
subsequent `Kill` unconditionally assigns the in-memory `doc.Life`
(what `Life()` reports) to Dying even though the stored life stays
Dead, so the reported life moves backward Dead to Dying. -/
theorem kill_on_dead_moves_doc_life_backward :
    Die ⟨Life.Alive, Life.Alive⟩ = ⟨Life.Dead, Life.Dead⟩
    ∧ Kill ⟨Life.Dead, Life.Dead⟩ = ⟨Life.Dead, Life.Dying⟩
    ∧ (Kill ⟨Life.Dead, Life.Dead⟩).doc.num < (LifeState.mk Life.Dead Life.Dead).doc.num := by
  decide

/-- Claim C5: `relationKey` is invariant under permutation of the
endpoint list. -/
theorem relationKey_perm_invariant (eps1 eps2 : List RelationEndpoint) (h : eps1.Perm eps2) :
    relationKey eps1 = relationKey eps2 := by
  unfold relationKey
  congr 1
  unfold sortStrings
  refine List.eq_of_perm_of_sorted ?_ (List.sorted_insertionSort _ _)
    (List.sorted_insertionSort _ _)
  exact (List.perm_insertionSort _ _).trans ((h.map _).trans (List.perm_insertionSort _ _).symm)

/-- Witness for C5: the two orders of the fixture endpoint pair give
the same key. -/
theorem relationKey_perm_invariant_witness :
    relationKey [epProv, epReq] = relationKey [epReq, epProv] :=
  relationKey_perm_invariant [epProv, epReq] [epReq, epProv] (List.Perm.swap epReq epProv [])

/-- Claim C10: in a relation whose endpoint list is a single peer
endpoint, `RelatedEndpoints` with that peer service's name succeeds
and returns the service's own peer endpoint (counterpart of peer is
peer). -/
theorem RelatedEndpoints_peer_self (r : Relation) (ep : RelationEndpoint)
    (he : r.doc.Endpoints = [ep]) (hrole : ep.RelationRole = RolePeer) :
    r.RelatedEndpoints ep.ServiceName = some (.ok [ep]) := by
  simp [Relation.RelatedEndpoints, Relation.Endpoint, he, hrole, counterpartRole,
    RoleProvider, RoleRequirer, RolePeer]

/-- Witness for C10 at the single-endpoint peer fixture relation. -/
theorem RelatedEndpoints_peer_self_witness :
    rPeer.RelatedEndpoints "riak" = some (.ok [epPeer]) :=
  RelatedEndpoints_peer_self rPeer epPeer rfl rfl

/-- Claim C6: `Unit(u)` derives the scope as `"r#<relationId>"` for a
global-scoped endpoint and `"r#<relationId>#<container>"` for a
container-scoped one, the container being the principal's name when
non-empty and the unit's own name otherwise; hence two subordinates
share a scope string iff they share a principal. -/
theorem unit_scope_spec (r : Relation) (u1 u2 : Mstate.Unit) (ep1 ep2 : RelationEndpoint)
    (h1 : r.Endpoint u1.Service = .ok ep1)
    (h2 : r.Endpoint u2.Service = .ok ep2) :
    (ep1.RelationScope = RelationScope.ScopeGlobal →
      (r.Unit u1).map RelationUnit.scope = .ok ("r#" ++ toString r.doc.Id))
    ∧ (ep1.RelationScope = RelationScope.ScopeContainer →
      (r.Unit u1).map RelationUnit.scope =
        .ok ("r#" ++ toString r.doc.Id ++ "#" ++
          (if u1.Principal = "" then u1.Name else u1.Principal)))
    ∧ (ep1.RelationScope = RelationScope.ScopeContainer →
        ep2.RelationScope = RelationScope.ScopeContainer →
        u1.Principal ≠ "" → u2.Principal ≠ "" →
        (((r.Unit u1).map RelationUnit.scope = (r.Unit u2).map RelationUnit.scope) ↔
          u1.Principal = u2.Principal)) := by
  have scopeOf : ∀ (u : Mstate.Unit) (ep : RelationEndpoint),
      r.Endpoint u.Service = .ok ep → ep.RelationScope = RelationScope.ScopeContainer →
      u.Principal ≠ "" →
      (r.Unit u).map RelationUnit.scope = .ok ("r#" ++ toString r.doc.Id ++ "#" ++ u.Principal) := by
    intro u ep hep hc hp
    simp [Relation.Unit, hep, hc, if_neg hp, goJoin, Except.map]
  refine ⟨?_, ?_, ?_⟩
  · intro hg
    simp [Relation.Unit, h1, hg, goJoin, Except.map]
  · intro hc
    simp [Relation.Unit, h1, hc, goJoin, Except.map]
  · intro hc1 hc2 hp1 hp2
    rw [scopeOf u1 ep1 h1 hc1 hp1, scopeOf u2 ep2 h2 hc2 hp2]
    simp only [Except.ok.injEq]
    exact str_append_right_inj ("r#" ++ toString r.doc.Id ++ "#")

/-- Witness for C6: two subordinates of different principals in the
container-scoped fixture relation get distinct scope strings. -/
theorem unit_scope_spec_witness :
    ((rCont.Unit uSub1).map RelationUnit.scope =
      .ok ("r#" ++ toString rCont.doc.Id ++ "#" ++
        (if uSub1.Principal = "" then uSub1.Name else uSub1.Principal)))
    ∧ (((rCont.Unit uSub1).map RelationUnit.scope =
        (rCont.Unit uSub3).map RelationUnit.scope) ↔
        uSub1.Principal = uSub3.Principal) :=
  ⟨(unit_scope_spec rCont uSub1 uSub3 epCont epCont (by decide) (by decide)).2.1 (by decide),
   (unit_scope_spec rCont uSub1 uSub3 epCont epCont (by decide) (by decide)).2.2
     (by decide) (by decide) (by decide) (by decide)⟩

/-- Claim C7: for a `#`-free unit name whose service has an endpoint in
the relation, `key(uname)` is `"<scope>#<role>#<uname>"`, and
`UnitName` on that key recovers exactly `uname`. -/
theorem key_unitName_roundtrip (ru : RelationUnit) (uname : String) (ep : RelationEndpoint)
    (hhash : ('#' : Char) ∉ uname.data)
    (hep : ru.relation.Endpoint ((goSplit uname '/').headD "") = .ok ep) :
    ru.key uname = .ok (ru.scope ++ "#" ++ ep.RelationRole ++ "#" ++ uname)
    ∧ relationRefDoc.UnitName ⟨ru.scope ++ "#" ++ ep.RelationRole ++ "#" ++ uname⟩ = uname := by
  have hh : ("#" : String).data = ['#'] := rfl
  have hdata : (ru.scope ++ "#" ++ ep.RelationRole ++ "#" ++ uname).data
      = ru.scope.data ++ '#' :: (ep.RelationRole.data ++ '#' :: uname.data) := by
    simp [str_data_append, hh]
  constructor
  · simp only [RelationUnit.key]
    rw [hep]
    rfl
  · unfold relationRefDoc.UnitName goSplit
    rw [hdata, splitChars_append, splitChars_append, splitChars_no_sep _ _ hhash]
    simp only [List.map_append, List.map_cons, List.map_nil]
    rw [← List.append_assoc, List.getLastD_concat]

/-- Witness for C7 at the fixture relation unit. -/
theorem key_unitName_roundtrip_witness :
    ruFix.key "wordpress/0" =
      .ok (ruFix.scope ++ "#" ++ epReq.RelationRole ++ "#" ++ "wordpress/0")
    ∧ relationRefDoc.UnitName
        ⟨ruFix.scope ++ "#" ++ epReq.RelationRole ++ "#" ++ "wordpress/0"⟩ = "wordpress/0" :=
  key_unitName_roundtrip ruFix "wordpress/0" epReq (by decide) (by decide)

/-- How `EnsureJoin` acts on the store, given the unit's address and
membership key: it always overwrites the settings document at the key,
and the marker insert fails iff the key is already present. -/
theorem ensureJoin_eq (ru : RelationUnit) (st : Store) (k a : String)
    (ha : ru.unit.PrivateAddress = some a) (hk : ru.key ru.unit.Name = .ok k) :
    ru.EnsureJoin st =
      if k ∈ st.relationRefs then
        .error (.cannotInitState ru.unit.Name ru.relation.doc.Key (.duplicateKey k))
      else
        .ok { settings := (k, [("private-address", a)]) ::
                st.settings.filter (fun kv => kv.1 ≠ k),
              relationRefs := k :: st.relationRefs } := by
  simp only [RelationUnit.EnsureJoin, ha, hk, txnInsertRef, writeSettingsDoc]
  by_cases hm : k ∈ st.relationRefs
  · simp [hm]
  · simp [hm]

/-- Claim C3: `EnsureJoin` followed immediately by `EnsureDepart`
leaves no membership marker at the unit's key, removes only from the
`relationRefs` collection (the settings are untouched), and the
settings document written by `EnsureJoin` remains readable via
`ReadSettings`. -/
theorem ensureJoin_then_depart (ru : RelationUnit) (st0 st1 : Store) (k a : String)
    (ha : ru.unit.PrivateAddress = some a)
    (hk : ru.key ru.unit.Name = .ok k)
    (h1 : ru.EnsureJoin st0 = .ok st1) :
    ru.EnsureDepart st1 = .ok (txnRemoveRef st1 k)
    ∧ k ∉ (txnRemoveRef st1 k).relationRefs
    ∧ (txnRemoveRef st1 k).settings = st1.settings
    ∧ ru.ReadSettings ru.unit.Name (txnRemoveRef st1 k) = .ok [("private-address", a)] := by
  rw [ensureJoin_eq ru st0 k a ha hk] at h1
  by_cases hm : k ∈ st0.relationRefs
  · rw [if_pos hm] at h1
    exact absurd h1 (by simp)
  · rw [if_neg hm] at h1
    injection h1 with h1
    subst h1
    refine ⟨?_, ?_, ?_, ?_⟩
    · simp [RelationUnit.EnsureDepart, hk]
    · simp [txnRemoveRef, List.mem_filter]
    · rfl
    · simp [RelationUnit.ReadSettings, hk, txnRemoveRef, readConfigNode, List.lookup]

/-- Witness for C3: join then depart on the fixture store. -/
theorem ensureJoin_then_depart_witness :
    ruFix.EnsureDepart stJoined = .ok (txnRemoveRef stJoined "r#42#requirer#wordpress/0")
    ∧ "r#42#requirer#wordpress/0" ∉
        (txnRemoveRef stJoined "r#42#requirer#wordpress/0").relationRefs
    ∧ (txnRemoveRef stJoined "r#42#requirer#wordpress/0").settings = stJoined.settings
    ∧ ruFix.ReadSettings "wordpress/0" (txnRemoveRef stJoined "r#42#requirer#wordpress/0") =
        .ok [("private-address", "10.0.0.1")] :=
  ensureJoin_then_depart ruFix ⟨[], []⟩ stJoined "r#42#requirer#wordpress/0" "10.0.0.1"
    (by decide) (by decide) (by decide)

/-- Claim C4: a second `EnsureJoin` without an intervening
`EnsureDepart` fails: the duplicate-key error of the marker insert is
propagated wrapped with unit and relation context, never swallowed. -/
theorem ensureJoin_twice_duplicate (ru : RelationUnit) (st0 st1 : Store) (k a : String)
    (ha : ru.unit.PrivateAddress = some a)
    (hk : ru.key ru.unit.Name = .ok k)
    (h1 : ru.EnsureJoin st0 = .ok st1) :
    ru.EnsureJoin st1 =
      .error (.cannotInitState ru.unit.Name ru.relation.doc.Key (.duplicateKey k)) := by
  rw [ensureJoin_eq ru st0 k a ha hk] at h1
  by_cases hm : k ∈ st0.relationRefs
  · rw [if_pos hm] at h1
    exact absurd h1 (by simp)
  · rw [if_neg hm] at h1
    injection h1 with h1
    subst h1
    rw [ensureJoin_eq ru _ k a ha hk]
    rw [if_pos (by simp)]

/-- Witness for C4: the second join on the fixture store fails with
the wrapped duplicate-key error. -/
theorem ensureJoin_twice_duplicate_witness :
    ruFix.EnsureJoin stJoined =
      .error (.cannotInitState "wordpress/0" "mysql:server wordpress:db"
        (.duplicateKey "r#42#requirer#wordpress/0")) :=
  ensureJoin_twice_duplicate ruFix ⟨[], []⟩ stJoined "r#42#requirer#wordpress/0" "10.0.0.1"
    (by decide) (by decide) (by decide)

/-- Claim C8: `ReadSettings` for a never-joined unit of a member
service returns the wrapped not-found error, does not depend on the
membership markers, and that error is distinct from the
service-not-in-relation error. -/
theorem readSettings_not_found (ru : RelationUnit) (uname : String) (st : Store) (k : String)
    (hk : ru.key uname = .ok k)
    (hs : st.settings.lookup k = none) :
    ru.ReadSettings uname st =
      .error (.cannotReadSettings uname ru.relation.doc.Key .notFound)
    ∧ (∀ refs : List String,
        ru.ReadSettings uname { st with relationRefs := refs } = ru.ReadSettings uname st)
    ∧ (∀ uname2 s rk, ru.relation.Endpoint ((goSplit uname2 '/').headD "") =
          .error (.serviceNotMember s rk) →
        ru.ReadSettings uname2 st =
          .error (.cannotReadSettings uname2 ru.relation.doc.Key (.serviceNotMember s rk))
        ∧ MErr.cannotReadSettings uname2 ru.relation.doc.Key (.serviceNotMember s rk) ≠
          MErr.cannotReadSettings uname ru.relation.doc.Key MErr.notFound) := by
  refine ⟨?_, ?_, ?_⟩
  · simp [RelationUnit.ReadSettings, hk, hs]
  · intro refs
    rfl
  · intro uname2 s rk h2
    constructor
    · simp only [RelationUnit.ReadSettings, RelationUnit.key]
      rw [h2]
    · simp

/-- Witness for C8: reading the never-joined fixture unit's settings
fails with not-found whether or not another unit's marker exists. -/
theorem readSettings_not_found_witness :
    ruFix.ReadSettings "wordpress/0" ⟨[], ["r#42#provider#mysql/0"]⟩ =
      .error (.cannotReadSettings "wordpress/0" "mysql:server wordpress:db" .notFound)
    ∧ ruFix.ReadSettings "wordpress/0" ⟨[], []⟩ =
        ruFix.ReadSettings "wordpress/0" ⟨[], ["r#42#provider#mysql/0"]⟩ :=
  ⟨(readSettings_not_found ruFix "wordpress/0" ⟨[], ["r#42#provider#mysql/0"]⟩
      "r#42#requirer#wordpress/0" (by decide) (by decide)).1,
   (readSettings_not_found ruFix "wordpress/0" ⟨[], ["r#42#provider#mysql/0"]⟩
      "r#42#requirer#wordpress/0" (by decide) (by decide)).2.1 []⟩

end Mstate
